import Mathlib

/-!
Shallow embedding of scrape.py: the directive scanner (mod_comment_scanner),
the declaration walker and renderer (Parser._parse_module, Parser._parse_class,
Parser._parse_method, Parser._parse_function), and the per-file driver
(Parser.parse) together with a batch runner mirroring main's sequential loop
over source files.

Python strings are modeled as Lean String values (lists of characters);
Python indexing, slicing, startswith, strip, replace and split are embedded
as executable functions with Python semantics below.  Python ast parsing and
ast.unparse are standard-library collaborators of scrape.py, not part of it:
a source file is modeled as its raw text paired with its parsed module body,
restricted to the declaration shapes scrape.py consumes (simple positional
parameters, decorator identifiers, optional docstring, and the textual form
of the return type).  The lines of ast.unparse output are modeled for
exactly the line shapes the code indexes into: decorator lines followed by
the def line (body lines are never reached by any index the code uses).
-/

/-- Python s.startswith(pre). -/
def pyStartswith (s pre : String) : Bool :=
  pre.toList.isPrefixOf s.toList

/-- Python s.strip() with no argument: remove leading and trailing whitespace. -/
def pyStrip (s : String) : String :=
  String.mk (((s.toList.dropWhile Char.isWhitespace).reverse.dropWhile Char.isWhitespace).reverse)

/-- Python s[n:] for a nonnegative n. -/
def strDrop (s : String) (n : Nat) : String :=
  String.mk (s.toList.drop n)

/-- Python s[:-1]. -/
def strDropLast (s : String) : String :=
  String.mk (s.toList.dropLast)

/-- Worker for Python str.replace: scan left to right, replace each
    non-overlapping occurrence of pat by rep.  The pend counter skips the
    remaining characters of a matched occurrence so the recursion is
    structural.  Python's behavior for an empty pattern is not needed by
    scrape.py (its patterns are nonempty) and is mapped to plain copying. -/
def replCharsGo (pat rep : List Char) : List Char → Nat → List Char
  | [], _ => []
  | _ :: rest, pend + 1 => replCharsGo pat rep rest pend
  | c :: rest, 0 =>
    if pat ≠ [] ∧ pat.isPrefixOf (c :: rest) then
      rep ++ replCharsGo pat rep rest (pat.length - 1)
    else
      c :: replCharsGo pat rep rest 0

/-- Python s.replace(pat, rep). -/
def pyReplace (s pat rep : String) : String :=
  String.mk (replCharsGo pat.toList rep.toList s.toList 0)

/-- Python list.index restricted to the found case (scrape.py only calls it
    after a membership test). -/
def pyIndexOf : List String → String → Nat
  | [], _ => 0
  | a :: rest, x => if a = x then 0 else pyIndexOf rest x + 1

/-- Result of mod_comment_scanner (scrape.py lines 38-63): Python returns
    None (skip the whole file) or a list of strings, and may raise
    RuntimeError on an unmatched end-ignore directive or IndexError on the
    unguarded data[index + 1] dereference at line 43. -/
inductive ScanResult
  | skipFile
  | exclusions (l : List String)
  | endIgnoreError
  | oobError
deriving DecidableEq, Repr

/-- Worker for Python s.split(","): accumulate the current token in reverse. -/
def splitCommasAux : List Char → List Char → List String
  | [], acc => [String.mk acc.reverse]
  | c :: rest, acc =>
    if c = ',' then String.mk acc.reverse :: splitCommasAux rest []
    else splitCommasAux rest (c :: acc)

/-- Python s.split(","). -/
def splitCommas (s : List Char) : List String :=
  splitCommasAux s []

/-- Line 63 of scrape.py: stuff.replace("#", "").split(",") if stuff else [].
    Replacing the single character '#' by the empty string is filtering. -/
def scanFinalize (stuff : List Char) : ScanResult :=
  if stuff = [] then ScanResult.exclusions []
  else ScanResult.exclusions (splitCommas (stuff.filter (fun ch => ch ≠ '#')))

/-- The while loop of mod_comment_scanner.  The first list argument is
    data[index:], so the loop guard index != len(data) is emptiness of the
    list; data[index] is its head and data[index + 1] the head of its tail
    (whose absence is exactly the IndexError of the unguarded dereference).
    The pend counter consumes the remaining characters of a matched
    "# doc: ignore" token, mirroring index += len("# doc: ignore"), keeping
    the recursion structural.  stuff and opened are the loop state. -/
def scanLoop : List Char → Nat → List Char → Bool → ScanResult
  | [], _, stuff, _ => scanFinalize stuff
  | _ :: rest, pend + 1, stuff, opened => scanLoop rest pend stuff opened
  | c :: rest, 0, stuff, opened =>
    if c = '\n' ∧ rest = [] then ScanResult.oobError
    else if c = '\n' ∧ rest.headD ' ' ≠ '#' then scanFinalize stuff
    else if ("# doc: module ignore").toList.isPrefixOf (c :: rest) then ScanResult.skipFile
    else if ("# doc: ignore").toList.isPrefixOf (c :: rest) then
      scanLoop rest (("# doc: ignore").length - 1) stuff true
    else if ("# doc: end ignore").toList.isPrefixOf (c :: rest) then
      (if opened then scanFinalize stuff else ScanResult.endIgnoreError)
    else scanLoop rest 0 (stuff ++ [c]) opened

/-- mod_comment_scanner of scrape.py (lines 38-63). -/
def mod_comment_scanner (data : String) : ScanResult :=
  scanLoop data.toList 0 [] false

example : mod_comment_scanner "# doc: ignore\n# Foo,Bar.baz\nx = 1\n" =
    ScanResult.exclusions ["\n Foo", "Bar.baz"] := by decide

example : mod_comment_scanner "#\n" = ScanResult.oobError := by decide

example : mod_comment_scanner "# doc: module ignore\nx" = ScanResult.skipFile := by decide

example : mod_comment_scanner "# doc: end ignore" = ScanResult.endIgnoreError := by decide

example : mod_comment_scanner "# doc: ignoreFoo\nx" = ScanResult.exclusions ["Foo"] := by decide

/-- A FunctionDef or AsyncFunctionDef node as scrape.py reads it: the async
    flag, node.name, the names of node.args.args (simple positional
    parameters), the .id fields of node.decorator_list, ast.get_docstring,
    and the textual form of node.returns when present. -/
structure PyFunc where
  isAsync : Bool
  name : String
  args : List String
  decorators : List String
  doc : Option String
  returns : Option String
deriving DecidableEq, Repr

/-- An element of a ClassDef body: a function-like member or any other node
    (ignored by the subnode loop of _parse_class). -/
inductive PyClassItem
  | func (f : PyFunc)
  | other
deriving DecidableEq, Repr

/-- A ClassDef node as scrape.py reads it. -/
structure PyClass where
  name : String
  doc : Option String
  body : List PyClassItem
deriving DecidableEq, Repr

/-- A top-level node of a parsed module: ClassDef, FunctionDef or
    AsyncFunctionDef, or any other statement (ignored by _parse_module). -/
inductive PyModItem
  | cls (c : PyClass)
  | func (f : PyFunc)
  | other
deriving DecidableEq, Repr

/-- Python truthiness test used as "if not doc_str": get_docstring returned
    None or the empty string. -/
def pyFalsy : Option String → Bool
  | none => true
  | some s => s == ""

/-- Python f-string interpolation of a possibly-None docstring: None prints
    as the literal text None. -/
def pyStr : Option String → String
  | none => "None"
  | some s => s

/-- Parser.template, "{heading} {name}\n\n{body}", applied by str.format. -/
def template (heading nm body : String) : String :=
  heading ++ " " ++ nm ++ "\n\n" ++ body

/-- Lines 170-177 of scrape.py, the receiver-elision on node.args.args of a
    non-property method: a lone argument named self is removed; with more
    than one argument the first is dropped only when it is named self. -/
def elideArgs (args : List String) : List String :=
  if args.length = 1 ∧ args.headD "" = "self" then []
  else if 1 < args.length then
    (if args.headD "" = "self" then args.tail else args)
  else args

/-- The def line of ast.unparse output for a (possibly mutated) function
    node: "def name(a, b) -> T:" with the async keyword in front when the
    node is an AsyncFunctionDef. -/
def defLine (f : PyFunc) : String :=
  (if f.isAsync then "async def " else "def ") ++ f.name ++ "(" ++
    String.intercalate ", " f.args ++ ")" ++
    (match f.returns with
     | some r => " -> " ++ r
     | none => "") ++ ":"

/-- Lines 163-167 of scrape.py: scan decorator ids, keep the last one among
    classmethod, staticmethod, property; empty string when none matched. -/
def decoKeyword (decs : List String) : String :=
  decs.foldl (fun acc d =>
    if d = "classmethod" ∨ d = "staticmethod" ∨ d = "property" then d else acc) ""

/-- Parser._parse_method (scrape.py lines 148-194).  unparse(node).splitlines()
    is modeled as the decorator lines followed by the def line; the code only
    ever indexes position len(node.decorator_list) (when a recognized
    decorator was found) or position 0, both inside this list. -/
def parse_method (ignore : List String) (class_name : String) (f : PyFunc) : String :=
  if pyFalsy f.doc then ""
  else if (class_name ++ "." ++ f.name) ∈ ignore then ""
  else
    let kw := decoKeyword f.decorators
    if kw ≠ "property" then
      let args2 := elideArgs f.args
      let lines := f.decorators.map (fun d => "@" ++ d) ++ [defLine { f with args := args2 }]
      let sigLine := if kw ≠ "" then lines.getD f.decorators.length "" else lines.getD 0 ""
      let signature :=
        if f.isAsync then
          pyReplace (pyReplace (strDropLast (strDrop sigLine 10)) "self, " "") "self" ""
        else
          pyReplace (pyReplace (strDropLast (strDrop sigLine 4)) "self, " "") "self" ""
      let nm :=
        if f.isAsync then
          "async " ++ (if kw ≠ "" then kw ++ " " else "") ++ class_name ++ "." ++ signature
        else
          (if kw ≠ "" then kw ++ " " else "") ++ class_name ++ "." ++ signature
      template "###" nm (pyStr f.doc ++ "\n\n\n")
    else
      template "###"
        ("property " ++ class_name ++ "." ++ f.name ++ ": " ++
          (match f.returns with
           | some r => r
           | none => "None"))
        (pyStr f.doc ++ "\n\n\n")

/-- Parser._parse_function (scrape.py lines 196-215).  The locals signature
    and name are computed by the source and then never used: the template is
    formatted with node.name, so the async marker never reaches the output. -/
def parse_function (ignore : List String) (f : PyFunc) : String :=
  if pyFalsy f.doc then ""
  else if f.name ∈ ignore then ""
  else
    let signature := String.intercalate ", " f.args
    let _nm := if f.isAsync then "async " ++ signature else signature
    template "##" f.name (pyStr f.doc ++ "\n\n\n")

/-- One iteration of the subnode loop of _parse_class (scrape.py lines
    133-142) on the state (signature, body): an __init__ member has its
    first argument dropped unconditionally and becomes the class signature;
    any other function-like member not named with a leading underscore is
    appended as a rendered method. -/
def classStep (ignore : List String) (class_name : String)
    (acc : String × String) : PyClassItem → String × String
  | PyClassItem.func sub =>
    if sub.name = "__init__" then
      (String.intercalate ", " (sub.args.drop 1), acc.2)
    else if ¬ pyStartswith sub.name "_" then
      (acc.1, acc.2 ++ parse_method ignore class_name sub)
    else acc
  | PyClassItem.other => acc

/-- Parser._parse_class (scrape.py lines 123-146). -/
def parse_class (ignore : List String) (node : PyClass) : String :=
  if node.name ∈ ignore then ""
  else
    let res := node.body.foldl (classStep ignore node.name) ("", pyStr node.doc ++ "\n\n")
    template "##" ("class " ++ node.name ++ "(" ++ res.1 ++ ")") res.2

/-- The contribution of one top-level node to the module buffer in
    _parse_module (scrape.py lines 111-121). -/
def modulePiece (ignore : List String) : PyModItem → String
  | PyModItem.cls c => if ¬ pyStartswith c.name "_" then parse_class ignore c else ""
  | PyModItem.func f => if ¬ pyStartswith f.name "_" then parse_function ignore f else ""
  | PyModItem.other => ""

/-- Parser._parse_module (scrape.py lines 111-121): the buffer accumulated
    over the module body. -/
def parse_module (ignore : List String) (m : List PyModItem) : String :=
  m.foldl (fun buf it => buf ++ modulePiece ignore it) ""

example :
    parse_method [] "C" ⟨false, "m", ["self", "x"], [], some "d", none⟩ =
      "### C.m(x)\n\nd\n\n\n" := by decide

example :
    parse_method [] "C" ⟨false, "m", ["cls", "x"], ["classmethod"], some "d", none⟩ =
      "### classmethod C.m(cls, x)\n\nd\n\n\n" := by decide

example :
    parse_method [] "C" ⟨true, "m", ["self", "x"], [], some "d", none⟩ =
      "### async C.m(x)\n\nd\n\n\n" := by decide

example :
    parse_method [] "C" ⟨false, "p", ["self"], ["property"], some "d", some "int"⟩ =
      "### property C.p: int\n\nd\n\n\n" := by decide

example :
    parse_function [] ⟨true, "f", ["x"], [], some "d", none⟩ = "## f\n\nd\n\n\n" := by decide

example :
    parse_class [] ⟨"Foo", some "d", []⟩ = "## class Foo()\n\nd\n\n" := by decide

example :
    parse_class []
        ⟨"Foo", none, [PyClassItem.func ⟨false, "__init__", ["self", "a"], [], none, none⟩]⟩ =
      "## class Foo(a)\n\nNone\n\n" := by decide

/-- The state of a Parser object that matters to Parser.parse: target_dir
    and the names and paths tuples built from the summary (Parser.__init__,
    scrape.py lines 75-78).  self.ignore is threaded separately because it
    mutates across files. -/
structure Config where
  target_dir : String
  names : List String
  paths : List String
deriving DecidableEq, Repr

/-- One source file as Parser.parse receives it: the raw text (the data
    argument) paired with the parsed module body ast.parse produces from
    that text (parsing is a standard-library collaborator, so the pair is
    taken as the input). -/
structure PyFile where
  text : String
  ast : List PyModItem
deriving DecidableEq, Repr

/-- The exceptions that can escape Parser.parse: the RuntimeError of an
    unmatched end-ignore directive and the IndexError of the unguarded
    data[index + 1] dereference. -/
inductive PErr
  | endIgnore
  | oob
deriving DecidableEq, Repr

/-- pathlib joinpath for the relative components scrape.py joins. -/
def pathJoin (a b : String) : String :=
  a ++ "/" ++ b

/-- Parser.parse (scrape.py lines 80-109) on the mutable ignore state: the
    result is the written (path, contents) pair, or none when the file is
    absent from the chapter index or requested module ignore, together with
    the value of self.ignore after the call.  self.ignore is replaced only
    when data starts with '#' and the scanner returns a list; otherwise the
    stale value from the previous file is used by _parse_module. -/
def parseFile (cfg : Config) (ignoreSt : List String) (path name : String) (f : PyFile) :
    Except PErr (Option (String × String) × List String) :=
  let folder := pathJoin cfg.target_dir path
  let file := pathJoin folder (name ++ ".md")
  if file ∈ cfg.paths then
    let chap_name := cfg.names.getD (pyIndexOf cfg.paths file) ""
    if pyStartswith f.text "#" then
      match mod_comment_scanner f.text with
      | ScanResult.skipFile => Except.ok (none, ignoreSt)
      | ScanResult.endIgnoreError => Except.error PErr.endIgnore
      | ScanResult.oobError => Except.error PErr.oob
      | ScanResult.exclusions ign =>
        Except.ok (some (file, template "#" chap_name (pyStrip (parse_module ign f.ast))), ign)
    else
      Except.ok (some (file, template "#" chap_name (pyStrip (parse_module ignoreSt f.ast))), ignoreSt)
  else
    Except.ok (none, ignoreSt)

/-- The sequential loop of main and recurse_dir (scrape.py lines 218-241)
    over an ordered list of discovered files (path, stem, contents): the
    list of files written, the final ignore state, and the first uncaught
    exception when one occurs (processing stops there, as nothing in
    scrape.py catches it). -/
def runBatch (cfg : Config) : List (String × String × PyFile) → List String →
    List (String × String) × List String × Option PErr
  | [], st => ([], st, none)
  | (p, n, f) :: rest, st =>
    match parseFile cfg st p n f with
    | Except.error e => ([], st, some e)
    | Except.ok (none, st2) => runBatch cfg rest st2
    | Except.ok (some w, st2) =>
      let r := runBatch cfg rest st2
      (w :: r.1, r.2.1, r.2.2)

/-- Keep a class-body item unless it is a function-like member with a
    leading-underscore name other than __init__ (the members _parse_class
    can render or use). -/
def privKeepItem : PyClassItem → Bool
  | PyClassItem.func f => (!pyStartswith f.name "_") || (f.name == "__init__")
  | PyClassItem.other => true

/-- Drop the privacy-marked members of a class body. -/
def privFilterClass (c : PyClass) : PyClass :=
  { c with body := c.body.filter privKeepItem }

/-- Keep a top-level item unless it is a class or function with a
    leading-underscore name. -/
def privKeepMod : PyModItem → Bool
  | PyModItem.cls c => !pyStartswith c.name "_"
  | PyModItem.func f => !pyStartswith f.name "_"
  | PyModItem.other => true

/-- Drop every privacy-marked declaration of a module: underscore-named
    top-level classes and functions, and underscore-named members other
    than __init__ inside the remaining classes. -/
def privFilterModule (m : List PyModItem) : List PyModItem :=
  (m.filter privKeepMod).map (fun it =>
    match it with
    | PyModItem.cls c => PyModItem.cls (privFilterClass c)
    | x => x)

example :
    parseFile ⟨"out", ["Chap"], ["out/p/f.md"]⟩ [] "p" "f"
        ⟨"class Foo: ...", [PyModItem.cls ⟨"Foo", some "d", []⟩]⟩ =
      Except.ok (some ("out/p/f.md", "# Chap\n\n## class Foo()\n\nd"), []) := rfl

example :
    parseFile ⟨"out", ["Chap"], ["out/p/f.md"]⟩ ["Foo"] "p" "f"
        ⟨"class Foo: ...", [PyModItem.cls ⟨"Foo", some "d", []⟩]⟩ =
      Except.ok (some ("out/p/f.md", "# Chap\n\n"), ["Foo"]) := rfl

example :
    parseFile ⟨"out", ["Chap"], ["out/p/f.md"]⟩ [] "p" "g"
        ⟨"# doc: end ignore", []⟩ = Except.ok (none, []) := rfl

example :
    parseFile ⟨"out", ["Chap"], ["out/p/f.md"]⟩ [] "p" "f"
        ⟨"# doc: end ignore", []⟩ = Except.error PErr.endIgnore := rfl

/-- Executable substring test: pat occurs contiguously in the list. -/
def hasSub (pat : List Char) : List Char → Bool
  | [] => pat.isPrefixOf []
  | c :: rest => pat.isPrefixOf (c :: rest) || hasSub pat rest

theorem strEmptyAppend (s : String) : "" ++ s = s := by
  cases s with
  | mk l => rfl

theorem strAppendEmpty (s : String) : s ++ "" = s := by
  cases s with
  | mk l =>
    show String.mk (l ++ []) = String.mk l
    rw [List.append_nil]

theorem strAppendAssoc (a b c : String) : a ++ b ++ c = a ++ (b ++ c) := by
  cases a with
  | mk la =>
    cases b with
    | mk lb =>
      cases c with
      | mk lc =>
        show String.mk (la ++ lb ++ lc) = String.mk (la ++ (lb ++ lc))
        rw [List.append_assoc]

theorem foldl_append_str (p : PyModItem → String) :
    ∀ (l : List PyModItem) (buf : String),
      l.foldl (fun b it => b ++ p it) buf = buf ++ l.foldl (fun b it => b ++ p it) "" := by
  intro l
  induction l with
  | nil =>
    intro buf
    simp only [List.foldl]
    exact (strAppendEmpty buf).symm
  | cons a t ih =>
    intro buf
    simp only [List.foldl]
    rw [ih (buf ++ p a), ih ("" ++ p a), strEmptyAppend, strAppendAssoc]

theorem parse_module_cons (ign : List String) (a : PyModItem) (l : List PyModItem) :
    parse_module ign (a :: l) = modulePiece ign a ++ parse_module ign l := by
  unfold parse_module
  simp only [List.foldl]
  rw [foldl_append_str (modulePiece ign) l ("" ++ modulePiece ign a), strEmptyAppend]

/-- Claim C1 counterexample: on the leading comment block of the claim, the
    scanner returns the tokens of the buffer split on commas with comment
    markers removed but with surrounding whitespace kept, so the first token
    is a newline, a space and Foo, and the name Foo itself is not in the
    returned exclusion set. -/
theorem C1_counterexample :
    mod_comment_scanner "# doc: ignore\n# Foo,Bar.baz\nx = 1\n" =
        ScanResult.exclusions ["\n Foo", "Bar.baz"] ∧
      ("Foo" ∉ ["\n Foo", "Bar.baz"]) ∧ ("\n Foo" : String) ≠ "Foo" :=
  ⟨by decide, by decide, by decide⟩

/-- Claim C1, amended: for the input whose leading comment block is
    a doc-ignore line followed by one comment line with Foo,Bar.baz, the
    Directive Scanner splits the accumulated buffer on commas after removing
    the comment-marker characters, but does not trim the tokens: it returns
    the exclusion list whose elements are a newline, space and Foo, and
    Bar.baz. -/
theorem C1_theorem :
    mod_comment_scanner "# doc: ignore\n# Foo,Bar.baz\nx = 1\n" =
      ScanResult.exclusions ["\n Foo", "Bar.baz"] := by decide

/-- Claim C2: the Directive Scanner walk is not bounds-checked.  When the
    character under scan is a newline that is the last character of the
    input, the code dereferences data[index + 1], one past the end of the
    string (an IndexError in Python, the oobError value of the embedding).
    It happens both on a minimal comment line and when the leading comment
    run (here a lone doc-ignore directive line) extends to the very end of
    the input with a final line break. -/
theorem C2_theorem :
    mod_comment_scanner "#\n" = ScanResult.oobError ∧
      mod_comment_scanner "# doc: ignore\n" = ScanResult.oobError :=
  ⟨by decide, by decide⟩

/-- Claim C3 counterexample: a classmethod whose first positional parameter
    is named cls keeps that parameter in the displayed signature, so the
    first positional parameter is not removed for every non-property
    method. -/
theorem C3_counterexample :
    parse_method [] "C" ⟨false, "m", ["cls", "x"], ["classmethod"], some "d", none⟩ =
        "### classmethod C.m(cls, x)\n\nd\n\n\n" ∧
      hasSub "cls".toList ("### classmethod C.m(cls, x)\n\nd\n\n\n").toList = true :=
  ⟨by decide, by decide⟩

/-- Claim C3, amended: for a non-property method, the leading positional
    parameter is removed from the parameter list exactly when it is named
    self (any other name, such as cls, is retained); afterwards the code
    additionally deletes literal self substrings from the pretty-printed
    signature text.  The second conjunct shows the elision end to end on a
    method whose receiver is named self. -/
theorem C3_theorem :
    (∀ args : List String,
        elideArgs args = if args.headD "" = "self" then args.tail else args) ∧
      parse_method [] "C" ⟨false, "m", ["self", "x"], [], some "d", none⟩ =
        "### C.m(x)\n\nd\n\n\n" := by
  constructor
  · intro args
    cases args with
    | nil => simp [elideArgs]
    | cons a t =>
      cases t with
      | nil => by_cases h : a = "self" <;> simp [elideArgs, h]
      | cons b t2 => by_cases h : a = "self" <;> simp [elideArgs, h]
  · decide

/-- Claim C4: the rendered section of a top-level function is identical for
    an async and a sync declaration that agree on everything else, because
    _parse_function formats the template with node.name and discards the
    local in which it built the async-prefixed signature; concretely, an
    async function f(x) with doc text renders exactly like its sync twin. -/
theorem C4_theorem :
    (∀ (ign : List String) (nm : String) (args decs : List String)
        (d r : Option String),
        parse_function ign ⟨true, nm, args, decs, d, r⟩ =
          parse_function ign ⟨false, nm, args, decs, d, r⟩) ∧
      parse_function [] ⟨true, "f", ["x"], [], some "d", none⟩ = "## f\n\nd\n\n\n" ∧
      parse_function [] ⟨false, "f", ["x"], [], some "d", none⟩ = "## f\n\nd\n\n\n" :=
  ⟨fun _ _ _ _ _ _ => rfl, by decide, by decide⟩

def cfg5 : Config := ⟨"out", ["A", "Chap"], ["out/a/g.md", "out/p/f.md"]⟩

def fileA5 : String × String × PyFile := ("a", "g", ⟨"# doc: ignoreFoo\nx", []⟩)

def fileB5 : String × String × PyFile :=
  ("p", "f", ⟨"class Foo: ...", [PyModItem.cls ⟨"Foo", some "d", []⟩]⟩)

/-- Claim C5 counterexample: the same file (fileB5, whose text does not
    begin with a comment marker) processed at the same chapter index
    produces different output depending on which files ran before it.
    Preceded by fileA5, whose directive block sets the exclusion list to
    Foo, the class Foo is dropped from fileB5's chapter; run first, the
    class is rendered.  Per-file output therefore depends on state left
    behind by another file. -/
theorem C5_counterexample :
    runBatch cfg5 [fileA5, fileB5] [] =
        ([("out/a/g.md", "# A\n\n"), ("out/p/f.md", "# Chap\n\n")], ["Foo"], none) ∧
      runBatch cfg5 [fileB5] [] =
        ([("out/p/f.md", "# Chap\n\n## class Foo()\n\nd")], [], none) ∧
      ("# Chap\n\n" : String) ≠ "# Chap\n\n## class Foo()\n\nd" :=
  ⟨rfl, rfl, by decide⟩

/-- Claim C5, amended: a file's output is a pure function of (file text,
    incoming exclusion state, chapter index); it is independent of the
    previously processed files exactly when the file's text begins with a
    comment marker, because then the scanner result replaces (or, for a
    skip, never reaches) the carried-over exclusion state.  For a file not
    beginning with a comment marker, the previous file's exclusion set is
    reused and can change the output, as the counterexample shows. -/
theorem C5_theorem (cfg : Config) (st1 st2 : List String) (p n : String) (f : PyFile)
    (h : pyStartswith f.text "#" = true) :
    (parseFile cfg st1 p n f).map Prod.fst = (parseFile cfg st2 p n f).map Prod.fst := by
  by_cases hm : pathJoin (pathJoin cfg.target_dir p) (n ++ ".md") ∈ cfg.paths
  · simp only [parseFile, hm, if_true, h]
    cases mod_comment_scanner f.text <;> simp [Except.map]
  · simp [parseFile, hm, Except.map]

def cfgW5 : Config := ⟨"o", ["T"], ["o/q/h.md"]⟩

def fileW5 : PyFile := ⟨"#x", [PyModItem.func ⟨false, "fn", [], [], some "dd", none⟩]⟩

/-- Claim C5 witness: the amended purity statement at a concrete file whose
    text begins with a comment marker, under two different incoming
    exclusion states. -/
theorem C5_witness :
    pyStartswith fileW5.text "#" = true ∧
      (parseFile cfgW5 [] "q" "h" fileW5).map Prod.fst =
        (parseFile cfgW5 ["fn"] "q" "h" fileW5).map Prod.fst :=
  ⟨by decide, C5_theorem cfgW5 [] ["fn"] "q" "h" fileW5 (by decide)⟩

/-- Claim C6: a file in the chapter index whose leading comment block makes
    the Directive Scanner raise the open-scope error aborts the batch at
    that point: the files written are exactly those written by the error-free
    prefix of the run, the error escapes, and no later file is written. -/
theorem C6_theorem (cfg : Config) (fs1 fs2 : List (String × String × PyFile))
    (p n : String) (f : PyFile) (st st' : List String) (ws : List (String × String))
    (h1 : runBatch cfg fs1 st = (ws, st', none))
    (h2 : pathJoin (pathJoin cfg.target_dir p) (n ++ ".md") ∈ cfg.paths)
    (h3 : pyStartswith f.text "#" = true)
    (h4 : mod_comment_scanner f.text = ScanResult.endIgnoreError) :
    runBatch cfg (fs1 ++ (p, n, f) :: fs2) st = (ws, st', some PErr.endIgnore) := by
  induction fs1 generalizing st ws st' with
  | nil =>
    simp only [runBatch] at h1
    injection h1 with e1 e2
    injection e2 with e2a e2b
    subst e1
    subst e2a
    have hbad : parseFile cfg st p n f = Except.error PErr.endIgnore := by
      simp [parseFile, h2, h3, h4]
    simp [runBatch, hbad]
  | cons g t ih =>
    obtain ⟨gp, gn, gf⟩ := g
    simp only [List.cons_append, runBatch] at h1 ⊢
    cases hpf : parseFile cfg st gp gn gf with
    | error e =>
      rw [hpf] at h1
      simp at h1
    | ok v =>
      obtain ⟨w, st2⟩ := v
      cases w with
      | none =>
        rw [hpf] at h1
        exact ih st2 st' ws h1
      | some w =>
        rw [hpf] at h1
        dsimp only at h1
        rcases hrb : runBatch cfg t st2 with ⟨ws2, st3, e3⟩
        rw [hrb] at h1
        dsimp only at h1
        injection h1 with e1 e2
        injection e2 with e2a e2b
        subst e1
        subst e2a
        subst e2b
        dsimp only
        simp only [List.append_eq]
        rw [ih st2 st3 ws2 hrb]

def cfg6 : Config := ⟨"o6", ["X", "Y"], ["o6/d/u.md", "o6/d/v.md"]⟩

def badFile6 : PyFile := ⟨"# doc: end ignore", []⟩

def goodFile6 : String × String × PyFile :=
  ("d", "v", ⟨"", [PyModItem.func ⟨false, "gg", [], [], some "dd", none⟩]⟩)

/-- Claim C6 witness: a two-file batch whose first file is in the index and
    carries an unmatched end-ignore directive writes nothing at all — the
    second file, which would otherwise produce a chapter, is never
    reached. -/
theorem C6_witness :
    runBatch cfg6 [("d", "u", badFile6), goodFile6] [] = ([], [], some PErr.endIgnore) :=
  C6_theorem cfg6 [] [goodFile6] "d" "u" badFile6 [] [] [] rfl (by decide) (by decide)
    (by decide)

theorem foldl_classStep_filter (ign : List String) (cn : String) :
    ∀ (body : List PyClassItem) (acc : String × String),
      (body.filter privKeepItem).foldl (classStep ign cn) acc =
        body.foldl (classStep ign cn) acc := by
  intro body
  induction body with
  | nil => intro acc; rfl
  | cons it t ih =>
    intro acc
    cases hk : privKeepItem it with
    | true =>
      simp only [List.filter_cons, hk, if_true, List.foldl]
      exact ih (classStep ign cn acc it)
    | false =>
      have hacc : classStep ign cn acc it = acc := by
        cases it with
        | other => simp [privKeepItem] at hk
        | func f =>
          simp only [privKeepItem, Bool.or_eq_false_iff, Bool.not_eq_false',
            beq_eq_false_iff_ne, ne_eq] at hk
          simp [classStep, hk.1, hk.2]
      simp only [List.filter_cons, hk, Bool.false_eq_true, if_false, List.foldl, hacc]
      exact ih acc

theorem parse_class_privFilter (ign : List String) (c : PyClass) :
    parse_class ign (privFilterClass c) = parse_class ign c := by
  cases c with
  | mk nm doc body =>
    simp only [parse_class, privFilterClass]
    rw [foldl_classStep_filter]

/-- Claim C7: declarations whose name begins with an underscore never
    contribute to the rendered module body, whatever the exclusion set:
    deleting every privacy-marked top-level class or function, and every
    privacy-marked member other than the specially handled __init__ inside
    the remaining classes, leaves the output of the Declaration Walker
    unchanged for every exclusion set. -/
theorem C7_theorem (ign : List String) (m : List PyModItem) :
    parse_module ign (privFilterModule m) = parse_module ign m := by
  induction m with
  | nil => rfl
  | cons a t ih =>
    cases a with
    | cls c =>
      cases h : pyStartswith c.name "_" with
      | true =>
        have hdrop : privFilterModule (PyModItem.cls c :: t) = privFilterModule t := by
          simp [privFilterModule, List.filter_cons, privKeepMod, h]
        have hp : modulePiece ign (PyModItem.cls c) = "" := by
          simp [modulePiece, h]
        rw [hdrop, ih, parse_module_cons, hp, strEmptyAppend]
      | false =>
        have hkeep : privFilterModule (PyModItem.cls c :: t) =
            PyModItem.cls (privFilterClass c) :: privFilterModule t := by
          simp [privFilterModule, List.filter_cons, privKeepMod, h]
        have hn : (privFilterClass c).name = c.name := rfl
        rw [hkeep, parse_module_cons, parse_module_cons, ih]
        have hp : modulePiece ign (PyModItem.cls (privFilterClass c)) =
            modulePiece ign (PyModItem.cls c) := by
          simp only [modulePiece, hn, parse_class_privFilter]
        rw [hp]
    | func f =>
      cases h : pyStartswith f.name "_" with
      | true =>
        have hdrop : privFilterModule (PyModItem.func f :: t) = privFilterModule t := by
          simp [privFilterModule, List.filter_cons, privKeepMod, h]
        have hp : modulePiece ign (PyModItem.func f) = "" := by
          simp [modulePiece, h]
        rw [hdrop, ih, parse_module_cons, hp, strEmptyAppend]
      | false =>
        have hkeep : privFilterModule (PyModItem.func f :: t) =
            PyModItem.func f :: privFilterModule t := by
          simp [privFilterModule, List.filter_cons, privKeepMod, h]
        rw [hkeep, parse_module_cons, parse_module_cons, ih]
    | other =>
      have hkeep : privFilterModule (PyModItem.other :: t) =
          PyModItem.other :: privFilterModule t := by
        simp [privFilterModule, List.filter_cons, privKeepMod]
      rw [hkeep, parse_module_cons, parse_module_cons, ih]

/-- Claim C8: a source file whose computed output path (target directory
    joined with the relative path and the base name plus the .md extension)
    equals no Chapter Index path is returned from unchanged: no document is
    produced and the exclusion state is untouched. -/
theorem C8_theorem (cfg : Config) (st : List String) (p n : String) (f : PyFile)
    (h : pathJoin (pathJoin cfg.target_dir p) (n ++ ".md") ∉ cfg.paths) :
    parseFile cfg st p n f = Except.ok (none, st) := by
  simp [parseFile, h]

def cfg8 : Config := ⟨"o8", ["T"], ["o8/z/w.md"]⟩

def file8 : PyFile := ⟨"", [PyModItem.func ⟨false, "fn", [], [], some "dd", none⟩]⟩

/-- Claim C8 witness: a documented module whose output path o8/z/q.md is
    absent from the index produces no document. -/
theorem C8_witness :
    pathJoin (pathJoin cfg8.target_dir "z") ("q" ++ ".md") ∉ cfg8.paths ∧
      parseFile cfg8 [] "z" "q" file8 = Except.ok (none, []) :=
  ⟨by decide, C8_theorem cfg8 [] "z" "q" file8 (by decide)⟩

theorem classStep_snd_one (ign : List String) (cn : String) (acc : String × String)
    (it : PyClassItem) : ∃ y, (classStep ign cn acc it).2 = acc.2 ++ y := by
  cases it with
  | other => exact ⟨"", (strAppendEmpty acc.2).symm⟩
  | func f =>
    by_cases h1 : f.name = "__init__"
    · refine ⟨"", ?_⟩
      simp [classStep, h1, strAppendEmpty]
    · by_cases h2 : pyStartswith f.name "_" = true
      · refine ⟨"", ?_⟩
        simp [classStep, h1, h2, strAppendEmpty]
      · refine ⟨parse_method ign cn f, ?_⟩
        simp [classStep, h1, h2]

theorem classStep_snd_extend (ign : List String) (cn : String) :
    ∀ (body : List PyClassItem) (acc : String × String),
      ∃ x, (body.foldl (classStep ign cn) acc).2 = acc.2 ++ x := by
  intro body
  induction body with
  | nil => intro acc; exact ⟨"", (strAppendEmpty acc.2).symm⟩
  | cons it t ih =>
    intro acc
    obtain ⟨y, hy⟩ := classStep_snd_one ign cn acc it
    obtain ⟨x, hx⟩ := ih (classStep ign cn acc it)
    refine ⟨y ++ x, ?_⟩
    simp only [List.foldl]
    rw [hx, hy, strAppendAssoc]

/-- Claim C9: a class with no doc text that is not excluded renders a
    section whose body starts with the literal placeholder text None
    followed by a blank line (the f-string prints the absent docstring as
    None), before any member sections. -/
theorem C9_theorem (ign : List String) (c : PyClass) (hdoc : c.doc = none)
    (hni : c.name ∉ ign) :
    ∃ sig rest, parse_class ign c =
      template "##" ("class " ++ c.name ++ "(" ++ sig ++ ")") ("None\n\n" ++ rest) := by
  obtain ⟨x, hx⟩ := classStep_snd_extend ign c.name c.body ("", pyStr c.doc ++ "\n\n")
  refine ⟨(c.body.foldl (classStep ign c.name) ("", pyStr c.doc ++ "\n\n")).1, x, ?_⟩
  simp only [parse_class, if_neg hni]
  rw [hx, hdoc]
  rfl

def c9class : PyClass :=
  ⟨"K", none, [PyClassItem.func ⟨false, "m", ["self"], [], some "d", none⟩]⟩

/-- Claim C9 witness: the placeholder section shape at a concrete docless
    class with one documented method. -/
theorem C9_witness :
    c9class.doc = none ∧ c9class.name ∉ ([] : List String) ∧
      ∃ sig rest, parse_class [] c9class =
        template "##" ("class " ++ c9class.name ++ "(" ++ sig ++ ")") ("None\n\n" ++ rest) :=
  ⟨rfl, by decide, C9_theorem [] c9class rfl (by decide)⟩

/-- Claim C10: when the computed output path has no Chapter Index entry,
    Parser.parse returns before ever looking at the file text, so even a
    text whose leading comment block would make the Directive Scanner raise
    the open-scope error causes no exception, no output and no state
    change. -/
theorem C10_theorem (cfg : Config) (st : List String) (p n : String) (f : PyFile)
    (h : pathJoin (pathJoin cfg.target_dir p) (n ++ ".md") ∉ cfg.paths)
    (_hscan : mod_comment_scanner f.text = ScanResult.endIgnoreError) :
    parseFile cfg st p n f = Except.ok (none, st) := by
  simp [parseFile, h]

def cfg10 : Config := ⟨"oA", ["T"], ["oA/r/s.md"]⟩

def file10 : PyFile := ⟨"# doc: end ignore", []⟩

/-- Claim C10 witness: a file with an unmatched end-ignore directive whose
    output path oA/r/t.md is not in the index is skipped silently. -/
theorem C10_witness :
    pathJoin (pathJoin cfg10.target_dir "r") ("t" ++ ".md") ∉ cfg10.paths ∧
      mod_comment_scanner file10.text = ScanResult.endIgnoreError ∧
      parseFile cfg10 [] "r" "t" file10 = Except.ok (none, []) :=
  ⟨by decide, by decide, C10_theorem cfg10 [] "r" "t" file10 (by decide) (by decide)⟩
